import Mathlib

/-!
Verification of the dependency-resolution shim
`topological_learning/dependencies/__init__.py`.

The module runs, at import time, the following statements (lines 1-16 of
the source): it imports `pyximport` and calls `pyximport.install()`, then
imports `CompileError` from `distutils.errors`, all three outside any
handler; then a `try` block imports `bottleneck_distance` from the local
accelerated module `.gudhi_bottleneck`, with a bare `except:` that instead
imports `bottleneck_distance` from the `gudhi` library and prints
"Using original gudhi bottleneck_distance."; then a second `try` block
imports `wasserstein` from the local accelerated module
`.hera_wasserstein`, with a bare `except:` that instead defines an inline
stub `wasserstein(diagram_1, diagram_2, p = 1, delta = 0.01)` whose body
is `pass` and prints "Function wasserstein_distance not available.".

We embed module initialization as a function from an environment (the
outcome of each import probe) to either a raised exception or a final
module state (the two name bindings plus the observable side effects).
Python exceptions, including the non-`Exception` signals that a bare
`except:` clause still catches, are modelled by the type `PyExc`.
-/

namespace GiottoDeps

/-- A Python exception or signal that an import statement can raise.
`keyboardInterrupt` and `systemExit` derive from `BaseException` but not
from `Exception`; a bare `except:` clause catches them all the same. -/
inductive PyExc where
  | importError (msg : String)
  | compileError (msg : String)
  | runtimeError (msg : String)
  | keyboardInterrupt
  | systemExit (code : Int)
deriving DecidableEq, Repr

/-- Whether the raised object is an instance of `Exception` (as opposed to
a bare `BaseException` signal such as `KeyboardInterrupt` or `SystemExit`). -/
def PyExc.isException : PyExc → Bool
  | .keyboardInterrupt => false
  | .systemExit _ => false
  | _ => true

/-- Outcome of one import probe: the import either succeeds or raises. -/
inductive ProbeResult where
  | ok
  | raised (e : PyExc)
deriving DecidableEq, Repr

/-- An observable side effect of module initialization.  The source only
ever prints; the other constructors exist so that the frame claim
(no files written, no network access) is statable rather than vacuous. -/
inductive Effect where
  | printLine (line : String)
  | fileWrite (path : String) (content : String)
  | networkRequest (url : String)
deriving DecidableEq, Repr

/-- Which implementation the name `bottleneck_distance` ends up bound to:
the accelerated `.gudhi_bottleneck` module or the `gudhi` library fallback. -/
inductive BottleneckBinding where
  | accelerated
  | gudhiFallback
deriving DecidableEq, Repr

/-- Which implementation the name `wasserstein` ends up bound to:
the accelerated `.hera_wasserstein` module or the inline no-op stub. -/
inductive WassersteinBinding where
  | accelerated
  | stub
deriving DecidableEq, Repr

/-- The environment a given run of module initialization finds itself in:
the outcome of each of the four import probes the source performs.
The `gudhi` library itself is a required dependency of the package
(the spec lists it as the mandatory ultimate fallback), so its import in
the handler is not part of the environment. -/
structure ImportEnv where
  pyximportProbe : ProbeResult
  distutilsProbe : ProbeResult
  gudhiBottleneckProbe : ProbeResult
  heraWassersteinProbe : ProbeResult
deriving DecidableEq, Repr

/-- The module namespace as initialization builds it: each of the two
names is either not (yet) bound or bound to one of its implementations,
and `stdout` records the effects performed so far, oldest first. -/
structure ModuleState where
  bottleneck_distance : Option BottleneckBinding
  wasserstein : Option WassersteinBinding
  stdout : List Effect
deriving DecidableEq, Repr

/-- Before any statement runs, neither name is bound and nothing was printed. -/
def initialState : ModuleState :=
  { bottleneck_distance := none, wasserstein := none, stdout := [] }

/-- The notice printed when the bottleneck fallback is selected
(source line 9). -/
def bottleneckNotice : String := "Using original gudhi bottleneck_distance."

/-- The notice printed when the Wasserstein stub is selected
(source line 16). -/
def wassersteinNotice : String := "Function wasserstein_distance not available."

/-- Source lines 5-9: `try: from .gudhi_bottleneck import bottleneck_distance`
with a bare `except:` that imports the `gudhi` fallback and prints a notice. -/
def resolveBottleneck (env : ImportEnv) (s : ModuleState) : ModuleState :=
  match env.gudhiBottleneckProbe with
  | .ok => { s with bottleneck_distance := some .accelerated }
  | .raised _ =>
      { s with
          bottleneck_distance := some .gudhiFallback,
          stdout := s.stdout ++ [.printLine bottleneckNotice] }

/-- Source lines 11-16: `try: from .hera_wasserstein import wasserstein`
with a bare `except:` that defines an inline stub and prints a notice. -/
def resolveWasserstein (env : ImportEnv) (s : ModuleState) : ModuleState :=
  match env.heraWassersteinProbe with
  | .ok => { s with wasserstein := some .accelerated }
  | .raised _ =>
      { s with
          wasserstein := some .stub,
          stdout := s.stdout ++ [.printLine wassersteinNotice] }

/-- Module initialization, statement by statement.  Lines 1-2
(`import pyximport; pyximport.install()`) and line 3
(`from distutils.errors import CompileError`) run outside any handler, so
an exception there propagates.  The two try/except blocks then run in
order; their handlers catch every exception. -/
def initModule (env : ImportEnv) : Except PyExc ModuleState :=
  match env.pyximportProbe with
  | .raised e => .error e
  | .ok =>
      match env.distutilsProbe with
      | .raised e => .error e
      | .ok => .ok (resolveWasserstein env (resolveBottleneck env initialState))

/-- A Python call signature: required positional parameter names followed
by optional parameters with their (rational) default values. -/
structure PySignature where
  required : List String
  defaults : List (String × ℚ)
deriving DecidableEq, Repr

/-- Signature of the inline stub, read off source lines 14-15:
`def wasserstein(diagram_1, diagram_2, p = 1, delta = 0.01)`. -/
def stubSignature : PySignature :=
  { required := ["diagram_1", "diagram_2"],
    defaults := [("p", 1), ("delta", 1 / 100)] }

/-- Modelled from the spec: the accelerated `.hera_wasserstein` module is
not part of the visible source; the spec fixes its signature as
`(diagram_1, diagram_2, p, delta)` with `p` defaulting to `1` and `delta`
defaulting to `0.01`. -/
def heraSignature : PySignature :=
  { required := ["diagram_1", "diagram_2"],
    defaults := [("p", 1), ("delta", 1 / 100)] }

/-- The call signature exposed by each possible `wasserstein` binding. -/
def WassersteinBinding.signature : WassersteinBinding → PySignature
  | .accelerated => heraSignature
  | .stub => stubSignature

/-- A persistence diagram: a finite multiset of (birth, death) pairs,
here a list of pairs of rationals.  The shim treats diagrams as opaque
values and passes them through to the selected backend. -/
abbrev PD := List (ℚ × ℚ)

/-- Cost of matching two diagram points, in the sup metric of the plane. -/
def pairCost (x y : ℚ × ℚ) : NNRat :=
  max (Rat.nnabs (x.1 - y.1)) (Rat.nnabs (x.2 - y.2))

/-- Cost of matching a diagram point to the diagonal: half its persistence,
the sup-metric distance from the point to the diagonal. -/
def diagCost (x : ℚ × ℚ) : NNRat := Rat.nnabs (x.2 - x.1) / 2

/-- A partial matching from `Fin n` to `Fin m`, as a function to `Option`:
no two indices on the left may be sent to the same index on the right. -/
def IsMatching {n m : ℕ} (σ : Fin n → Option (Fin m)) : Prop :=
  ∀ i₁ i₂ j, σ i₁ = some j → σ i₂ = some j → i₁ = i₂

instance {n m : ℕ} (σ : Fin n → Option (Fin m)) : Decidable (IsMatching σ) := by
  unfold IsMatching; infer_instance

/-- The type of partial matchings between index sets of sizes `n` and `m`. -/
abbrev Matching (n m : ℕ) := {σ : Fin n → Option (Fin m) // IsMatching σ}

/-- The empty matching: every point goes to the diagonal. -/
def noneMatching (n m : ℕ) : Matching n m :=
  ⟨fun _ => none, by intro i₁ i₂ j h₁ _; exact absurd h₁ (by simp)⟩

/-- The graph of a partial matching, as a finite set of index pairs. -/
def graph {n m : ℕ} (σ : Fin n → Option (Fin m)) : Finset (Fin n × Fin m) :=
  Finset.univ.filter (fun ij => σ ij.1 = some ij.2)

/-- The inverse of a partial matching, looking each right index up in `σ`. -/
def invOpt {n m : ℕ} (σ : Fin n → Option (Fin m)) : Fin m → Option (Fin n) :=
  fun j => Fin.find (fun i => σ i = some j)

/-- Largest pair cost over the matched pairs of `σ`. -/
def pairsCost (d1 d2 : PD) (σ : Fin d1.length → Option (Fin d2.length)) : NNRat :=
  (graph σ).sup (fun ij => pairCost (d1.get ij.1) (d2.get ij.2))

/-- Largest diagonal cost over the left-hand points that `σ` leaves unmatched. -/
def leftDiagCost (d1 : PD) {m : ℕ} (σ : Fin d1.length → Option (Fin m)) : NNRat :=
  (Finset.univ.filter (fun i => σ i = none)).sup (fun i => diagCost (d1.get i))

/-- Largest diagonal cost over the right-hand points that `σ` leaves unmatched. -/
def rightDiagCost (d2 : PD) {n : ℕ} (σ : Fin n → Option (Fin d2.length)) : NNRat :=
  (Finset.univ.filter (fun j => invOpt σ j = none)).sup (fun j => diagCost (d2.get j))

/-- The cost of a partial matching between two diagrams: the largest of all
pair costs and diagonal costs it incurs. -/
def matchingCost (d1 d2 : PD) (σ : Fin d1.length → Option (Fin d2.length)) : NNRat :=
  pairsCost d1 d2 σ ⊔ leftDiagCost d1 σ ⊔ rightDiagCost d2 σ

/-- Modelled from the spec: the accelerated `.gudhi_bottleneck` backend and
the `gudhi` fallback are external to the visible source; per the spec both
compute the bottleneck distance, "the minimax matching distance between two
persistence diagrams".  We define it as the least, over all partial
matchings with unmatched points sent to the diagonal, of the largest cost
the matching incurs. -/
def bottleneckDistance (d1 d2 : PD) : NNRat :=
  Finset.inf' Finset.univ ⟨noneMatching d1.length d2.length, Finset.mem_univ _⟩
    (fun σ : Matching d1.length d2.length => matchingCost d1 d2 σ.1)

/-- Total cost of a partial matching at order `e`: the sum of the `e`-th
powers of all pair costs and diagonal costs it incurs. -/
def sumMatchingCost (e : ℕ) (d1 d2 : PD)
    (σ : Fin d1.length → Option (Fin d2.length)) : NNRat :=
  (graph σ).sum (fun ij => pairCost (d1.get ij.1) (d2.get ij.2) ^ e)
    + (Finset.univ.filter (fun i => σ i = none)).sum
        (fun i => diagCost (d1.get i) ^ e)
    + (Finset.univ.filter (fun j => invOpt σ j = none)).sum
        (fun j => diagCost (d2.get j) ^ e)

/-- Modelled from the spec: the accelerated `.hera_wasserstein` backend is
external to the visible source; per the spec it computes the order-`p`
Wasserstein matching distance with approximation tolerance `delta`.  We
model the exact minimal total matching cost for integral orders (the spec
default is `p = 1`, where this is exactly the order-1 distance), omitting
the final `1/p`-th root, which is not rational-valued, and ignoring
`delta` since the model is exact.  No claim constrains the numeric value,
only that a call returns a usable number without raising. -/
def heraWasserstein (d1 d2 : PD) (p : ℚ) (delta : ℚ) : NNRat :=
  Finset.inf' Finset.univ ⟨noneMatching d1.length d2.length, Finset.mem_univ _⟩
    (fun σ : Matching d1.length d2.length => sumMatchingCost p.num.toNat d1 d2 σ.1)

/-- Calling the function bound to `bottleneck_distance`.  Both backends
(modelled from the spec) compute the bottleneck distance, so the binding
tag only records identity; neither call can raise. -/
def BottleneckBinding.apply : BottleneckBinding → PD → PD → NNRat
  | .accelerated, d1, d2 => bottleneckDistance d1 d2
  | .gudhiFallback, d1, d2 => bottleneckDistance d1 d2

/-- Calling the function bound to `wasserstein` with the two diagrams and
optionally-supplied `p` and `delta` arguments (passing `none` models
omitting the argument, so the default from the `def` applies).  The stub
body is `pass`: it binds its parameters, computes nothing, and returns
`None`; neither branch can raise. -/
def WassersteinBinding.apply :
    WassersteinBinding → PD → PD → Option ℚ → Option ℚ → Except PyExc (Option NNRat)
  | .accelerated, d1, d2, pOpt, deltaOpt =>
      .ok (some (heraWasserstein d1 d2 (pOpt.getD 1) (deltaOpt.getD (1 / 100))))
  | .stub, _, _, _, _ => .ok none

/-- The identity matching on `n` points. -/
def idMatching (n : ℕ) : Matching n n :=
  ⟨fun i => some i, by
    intro i₁ i₂ j h₁ h₂
    exact Option.some_injective _ (h₁.trans h₂.symm)⟩

/-! ### Concrete environments and the states initialization reaches in them -/

/-- Every probe succeeds: both accelerated backends are available. -/
def envBothOk : ImportEnv := ⟨.ok, .ok, .ok, .ok⟩

/-- Both accelerated backend imports fail; the prerequisites succeed. -/
def envBothFail : ImportEnv :=
  ⟨.ok, .ok, .raised (.importError "gudhi_bottleneck unavailable"),
    .raised (.importError "hera_wasserstein unavailable")⟩

/-- Only the accelerated bottleneck import fails. -/
def envBFail : ImportEnv :=
  ⟨.ok, .ok, .raised (.compileError "gudhi_bottleneck build failed"), .ok⟩

/-- Only the accelerated Wasserstein import fails. -/
def envWFail : ImportEnv :=
  ⟨.ok, .ok, .ok, .raised (.compileError "hera_wasserstein build failed")⟩

/-- Both accelerated imports are interrupted by a non-`Exception` signal. -/
def envInterrupted : ImportEnv :=
  ⟨.ok, .ok, .raised .keyboardInterrupt, .raised .keyboardInterrupt⟩

/-- The unguarded `import pyximport; pyximport.install()` step fails. -/
def envPyxFail : ImportEnv :=
  ⟨.raised (.importError "pyximport missing"), .ok, .ok, .ok⟩

/-- The unguarded `from distutils.errors import CompileError` step fails. -/
def envDistutilsFail : ImportEnv :=
  ⟨.ok, .raised (.importError "distutils missing"), .ok, .ok⟩

/-- Final state when both accelerated backends load. -/
def stateBothOk : ModuleState := ⟨some .accelerated, some .accelerated, []⟩

/-- Final state when both accelerated backends are unavailable. -/
def stateBothFail : ModuleState :=
  ⟨some .gudhiFallback, some .stub,
    [.printLine bottleneckNotice, .printLine wassersteinNotice]⟩

/-- Final state when only the accelerated bottleneck backend is unavailable. -/
def stateBFail : ModuleState :=
  ⟨some .gudhiFallback, some .accelerated, [.printLine bottleneckNotice]⟩

/-- Final state when only the accelerated Wasserstein backend is unavailable. -/
def stateWFail : ModuleState :=
  ⟨some .accelerated, some .stub, [.printLine wassersteinNotice]⟩

/-! ### Lemmas about matchings and their inverses -/

lemma nnabs_sub_comm (a b : ℚ) : Rat.nnabs (a - b) = Rat.nnabs (b - a) :=
  Subtype.ext (abs_sub_comm a b)

lemma pairCost_comm (x y : ℚ × ℚ) : pairCost x y = pairCost y x := by
  unfold pairCost
  rw [nnabs_sub_comm x.1 y.1, nnabs_sub_comm x.2 y.2]

lemma nnabs_zero : Rat.nnabs 0 = 0 :=
  Subtype.ext (by simp)

lemma pairCost_self (x : ℚ × ℚ) : pairCost x x = 0 := by
  simp [pairCost, sub_self, nnabs_zero]

lemma invOpt_eq_some_iff {n m : ℕ} {σ : Fin n → Option (Fin m)} (hσ : IsMatching σ)
    {i : Fin n} {j : Fin m} : invOpt σ j = some i ↔ σ i = some j := by
  constructor
  · intro h
    exact Fin.find_spec _ h
  · intro h
    rcases hfind : Fin.find (fun i => σ i = some j) with _ | i₀
    · rw [Fin.find_eq_none_iff] at hfind
      exact absurd h (hfind i)
    · have h₀ : σ i₀ = some j := Fin.find_spec _ hfind
      show Fin.find (fun i => σ i = some j) = some i
      rw [hfind]
      exact congrArg some (hσ i₀ i j h₀ h)

lemma invOpt_eq_none_iff {n m : ℕ} {σ : Fin n → Option (Fin m)} {j : Fin m} :
    invOpt σ j = none ↔ ∀ i, σ i ≠ some j := by
  unfold invOpt
  exact Fin.find_eq_none_iff

lemma isMatching_invOpt {n m : ℕ} (σ : Fin n → Option (Fin m)) :
    IsMatching (invOpt σ) := by
  intro j₁ j₂ i h₁ h₂
  have g₁ : σ i = some j₁ := Fin.find_spec _ h₁
  have g₂ : σ i = some j₂ := Fin.find_spec _ h₂
  exact Option.some_injective _ (g₁.symm.trans g₂)

lemma invOpt_invOpt {n m : ℕ} {σ : Fin n → Option (Fin m)} (hσ : IsMatching σ) :
    invOpt (invOpt σ) = σ := by
  funext i
  rcases h : σ i with _ | j
  · rw [invOpt_eq_none_iff]
    intro j hj
    have hs : σ i = some j := (invOpt_eq_some_iff hσ).mp hj
    rw [h] at hs
    exact Option.noConfusion hs
  · exact (invOpt_eq_some_iff (isMatching_invOpt σ)).mpr
      ((invOpt_eq_some_iff hσ).mpr h)

lemma graph_invOpt {n m : ℕ} {σ : Fin n → Option (Fin m)} (hσ : IsMatching σ) :
    graph (invOpt σ) = (graph σ).image Prod.swap := by
  ext ⟨j, i⟩
  simp only [graph, Finset.mem_image, Finset.mem_filter, Finset.mem_univ, true_and]
  constructor
  · intro h
    exact ⟨(i, j), (invOpt_eq_some_iff hσ).mp h, rfl⟩
  · rintro ⟨⟨a, b⟩, hab, hswap⟩
    simp only [Prod.swap_prod_mk, Prod.mk.injEq] at hswap
    obtain ⟨rfl, rfl⟩ := hswap
    exact (invOpt_eq_some_iff hσ).mpr hab

lemma pairsCost_invOpt (d1 d2 : PD) {σ : Fin d1.length → Option (Fin d2.length)}
    (hσ : IsMatching σ) : pairsCost d2 d1 (invOpt σ) = pairsCost d1 d2 σ := by
  unfold pairsCost
  rw [graph_invOpt hσ, Finset.sup_image]
  exact Finset.sup_congr rfl (fun ij _ => by
    simp only [Function.comp_apply, Prod.fst_swap, Prod.snd_swap]
    exact pairCost_comm _ _)

lemma rightDiagCost_invOpt (d1 : PD) {m : ℕ} {σ : Fin d1.length → Option (Fin m)}
    (hσ : IsMatching σ) : rightDiagCost d1 (invOpt σ) = leftDiagCost d1 σ := by
  unfold rightDiagCost leftDiagCost
  rw [invOpt_invOpt hσ]

lemma matchingCost_invOpt (d1 d2 : PD) {σ : Fin d1.length → Option (Fin d2.length)}
    (hσ : IsMatching σ) : matchingCost d2 d1 (invOpt σ) = matchingCost d1 d2 σ := by
  unfold matchingCost
  rw [pairsCost_invOpt d1 d2 hσ, rightDiagCost_invOpt d1 hσ]
  have h10 : leftDiagCost d2 (invOpt σ) = rightDiagCost d2 σ := rfl
  rw [h10, sup_right_comm]

lemma bottleneckDistance_le_swap (d1 d2 : PD) :
    bottleneckDistance d1 d2 ≤ bottleneckDistance d2 d1 := by
  unfold bottleneckDistance
  apply Finset.le_inf'
  intro τ _
  have hle := Finset.inf'_le
    (fun σ : Matching d1.length d2.length => matchingCost d1 d2 σ.1)
    (Finset.mem_univ (⟨invOpt τ.1, isMatching_invOpt τ.1⟩ :
      Matching d1.length d2.length))
  exact le_trans hle (le_of_eq (matchingCost_invOpt d2 d1 τ.2))

lemma bottleneckDistance_comm (d1 d2 : PD) :
    bottleneckDistance d1 d2 = bottleneckDistance d2 d1 :=
  le_antisymm (bottleneckDistance_le_swap d1 d2) (bottleneckDistance_le_swap d2 d1)

lemma matchingCost_id_le (d : PD) :
    matchingCost d d (idMatching d.length).1 ≤ 0 := by
  unfold matchingCost pairsCost leftDiagCost rightDiagCost
  refine sup_le (sup_le (Finset.sup_le ?_) (Finset.sup_le ?_)) (Finset.sup_le ?_)
  · intro ij hij
    rw [graph, Finset.mem_filter] at hij
    have h2 : some ij.1 = some ij.2 := hij.2
    have h : ij.2 = ij.1 := (Option.some_injective _ h2).symm
    rw [h, pairCost_self]
  · intro i hi
    rw [Finset.mem_filter] at hi
    have h2 : some i = (none : Option (Fin d.length)) := hi.2
    exact Option.noConfusion h2
  · intro j hj
    obtain ⟨-, hj2⟩ := Finset.mem_filter.mp hj
    have hs : invOpt (idMatching d.length).1 j = some j :=
      (invOpt_eq_some_iff (idMatching d.length).2).mpr rfl
    rw [hs] at hj2
    exact Option.noConfusion hj2

lemma bottleneckDistance_self (d : PD) : bottleneckDistance d d = 0 := by
  apply le_antisymm
  · have hle := Finset.inf'_le
      (fun σ : Matching d.length d.length => matchingCost d d σ.1)
      (Finset.mem_univ (idMatching d.length))
    exact le_trans hle (matchingCost_id_le d)
  · exact zero_le _

/-! ### Lemmas about module initialization -/

lemma initModule_ok_iff {env : ImportEnv} {s : ModuleState} :
    initModule env = .ok s ↔
      env.pyximportProbe = .ok ∧ env.distutilsProbe = .ok ∧
        s = resolveWasserstein env (resolveBottleneck env initialState) := by
  rcases hp : env.pyximportProbe with _ | e
  · rcases hd : env.distutilsProbe with _ | e
    · simp [initModule, hp, hd, eq_comm]
    · simp [initModule, hp, hd]
  · simp [initModule, hp]

lemma bottleneck_of_resolved (env : ImportEnv) :
    (resolveWasserstein env (resolveBottleneck env initialState)).bottleneck_distance =
      some (match env.gudhiBottleneckProbe with
            | .ok => BottleneckBinding.accelerated
            | .raised _ => BottleneckBinding.gudhiFallback) := by
  rcases hw : env.heraWassersteinProbe with _ | e <;>
    rcases hb : env.gudhiBottleneckProbe with _ | e2 <;>
      simp [resolveWasserstein, resolveBottleneck, hw, hb]

lemma wasserstein_of_resolved (env : ImportEnv) :
    (resolveWasserstein env (resolveBottleneck env initialState)).wasserstein =
      some (match env.heraWassersteinProbe with
            | .ok => WassersteinBinding.accelerated
            | .raised _ => WassersteinBinding.stub) := by
  rcases hw : env.heraWassersteinProbe with _ | e <;>
    simp [resolveWasserstein, hw]

lemma stdout_of_resolved (env : ImportEnv) :
    (resolveWasserstein env (resolveBottleneck env initialState)).stdout =
      (match env.gudhiBottleneckProbe with
       | .ok => []
       | .raised _ => [Effect.printLine bottleneckNotice]) ++
      (match env.heraWassersteinProbe with
       | .ok => []
       | .raised _ => [Effect.printLine wassersteinNotice]) := by
  rcases hb : env.gudhiBottleneckProbe with _ | e <;>
    rcases hw : env.heraWassersteinProbe with _ | e2 <;>
      simp [resolveWasserstein, resolveBottleneck, initialState, hb, hw]

/-! ### The claims -/

/-- C1: for every outcome of the two accelerated import probes (the
unguarded prerequisites having succeeded), module initialization completes
without propagating an exception — in particular when both accelerated
backends are unavailable — and no error from the resolution process ever
reaches a caller of the resolved functions: every call to the resolved
`wasserstein` returns a value rather than raising (the resolved
`bottleneck_distance` is total by the type of
`BottleneckBinding.apply`). -/
theorem c1_resolution_failures_never_fatal (env : ImportEnv)
    (hp : env.pyximportProbe = .ok) (hd : env.distutilsProbe = .ok) :
    ∃ s : ModuleState, initModule env = .ok s ∧
      ∀ b : WassersteinBinding, s.wasserstein = some b →
        ∀ d1 d2 pOpt deltaOpt, ∃ v, b.apply d1 d2 pOpt deltaOpt = .ok v := by
  refine ⟨resolveWasserstein env (resolveBottleneck env initialState),
    initModule_ok_iff.mpr ⟨hp, hd, rfl⟩, ?_⟩
  intro b _ d1 d2 pOpt deltaOpt
  cases b
  · exact ⟨some (heraWasserstein d1 d2 (pOpt.getD 1) (deltaOpt.getD (1 / 100))), rfl⟩
  · exact ⟨none, rfl⟩

/-- Witness for C1 at the environment where both accelerated imports fail. -/
theorem c1_witness :
    envBothFail.pyximportProbe = .ok ∧ envBothFail.distutilsProbe = .ok ∧
      ∃ s : ModuleState, initModule envBothFail = .ok s ∧
        ∀ b : WassersteinBinding, s.wasserstein = some b →
          ∀ d1 d2 pOpt deltaOpt, ∃ v, b.apply d1 d2 pOpt deltaOpt = .ok v :=
  ⟨rfl, rfl, c1_resolution_failures_never_fatal envBothFail rfl rfl⟩

/-- C2: whenever module initialization completes, both
`bottleneck_distance` and `wasserstein` are bound to some callable, in
every combination of accelerated-backend availability. -/
theorem c2_both_names_bound (env : ImportEnv) (s : ModuleState)
    (h : initModule env = .ok s) :
    (∃ b, s.bottleneck_distance = some b) ∧ (∃ w, s.wasserstein = some w) := by
  obtain ⟨-, -, rfl⟩ := initModule_ok_iff.mp h
  exact ⟨⟨_, bottleneck_of_resolved env⟩, ⟨_, wasserstein_of_resolved env⟩⟩

/-- Witness for C2 at the environment where both accelerated imports fail. -/
theorem c2_witness :
    initModule envBothFail = .ok stateBothFail ∧
      (∃ b, stateBothFail.bottleneck_distance = some b) ∧
      (∃ w, stateBothFail.wasserstein = some w) :=
  ⟨rfl, c2_both_names_bound envBothFail stateBothFail rfl⟩

/-- C3: if the accelerated Wasserstein import fails, `wasserstein` is
bound to the stub, which has the same signature as the accelerated
backend, returns `None` on every input without raising, and the notice is
in the output of initialization. -/
theorem c3_wasserstein_stub_on_failure (env : ImportEnv) (e : PyExc)
    (s : ModuleState) (hw : env.heraWassersteinProbe = .raised e)
    (h : initModule env = .ok s) :
    s.wasserstein = some .stub ∧
      WassersteinBinding.stub.signature = heraSignature ∧
      (∀ d1 d2 pOpt deltaOpt,
        WassersteinBinding.stub.apply d1 d2 pOpt deltaOpt = .ok none) ∧
      Effect.printLine wassersteinNotice ∈ s.stdout := by
  obtain ⟨-, -, rfl⟩ := initModule_ok_iff.mp h
  refine ⟨?_, rfl, fun _ _ _ _ => rfl, ?_⟩
  · rw [wasserstein_of_resolved env, hw]
  · rw [stdout_of_resolved env, hw]
    simp

/-- Witness for C3 at the environment where the hera import fails. -/
theorem c3_witness :
    envWFail.heraWassersteinProbe =
        .raised (.compileError "hera_wasserstein build failed") ∧
      initModule envWFail = .ok stateWFail ∧
      stateWFail.wasserstein = some .stub ∧
      WassersteinBinding.stub.signature = heraSignature ∧
      (∀ d1 d2 pOpt deltaOpt,
        WassersteinBinding.stub.apply d1 d2 pOpt deltaOpt = .ok none) ∧
      Effect.printLine wassersteinNotice ∈ stateWFail.stdout :=
  ⟨rfl, rfl, c3_wasserstein_stub_on_failure envWFail _ stateWFail rfl rfl⟩

/-- C4: the two capabilities degrade independently — in any two completed
runs, if the Wasserstein probes had the same outcome then `wasserstein`
was resolved the same way, whatever the bottleneck probes did, and
symmetrically. -/
theorem c4_independent_degradation (env₁ env₂ : ImportEnv)
    (s₁ s₂ : ModuleState) (h₁ : initModule env₁ = .ok s₁)
    (h₂ : initModule env₂ = .ok s₂) :
    (env₁.heraWassersteinProbe = env₂.heraWassersteinProbe →
        s₁.wasserstein = s₂.wasserstein) ∧
      (env₁.gudhiBottleneckProbe = env₂.gudhiBottleneckProbe →
        s₁.bottleneck_distance = s₂.bottleneck_distance) := by
  obtain ⟨-, -, rfl⟩ := initModule_ok_iff.mp h₁
  obtain ⟨-, -, rfl⟩ := initModule_ok_iff.mp h₂
  constructor
  · intro hEq
    rw [wasserstein_of_resolved, wasserstein_of_resolved, hEq]
  · intro hEq
    rw [bottleneck_of_resolved, bottleneck_of_resolved, hEq]

/-- Witness for C4: a bottleneck failure leaves `wasserstein` resolved
exactly as in the fully successful run. -/
theorem c4_witness :
    initModule envBothOk = .ok stateBothOk ∧
      initModule envBFail = .ok stateBFail ∧
      stateBothOk.wasserstein = stateBFail.wasserstein :=
  ⟨rfl, rfl,
    (c4_independent_degradation envBothOk envBFail stateBothOk stateBFail
      rfl rfl).1 rfl⟩

/-- C5: when an accelerated backend loads, resolution binds the
corresponding name to the accelerated implementation, not to the fallback
or the stub. -/
theorem c5_accelerated_preferred (env : ImportEnv) (s : ModuleState)
    (h : initModule env = .ok s) :
    (env.gudhiBottleneckProbe = .ok →
        s.bottleneck_distance = some .accelerated) ∧
      (env.heraWassersteinProbe = .ok → s.wasserstein = some .accelerated) := by
  obtain ⟨-, -, rfl⟩ := initModule_ok_iff.mp h
  constructor
  · intro hb
    rw [bottleneck_of_resolved, hb]
  · intro hw
    rw [wasserstein_of_resolved, hw]

/-- Witness for C5 at the environment where both accelerated imports
succeed. -/
theorem c5_witness :
    initModule envBothOk = .ok stateBothOk ∧
      stateBothOk.bottleneck_distance = some .accelerated ∧
      stateBothOk.wasserstein = some .accelerated :=
  ⟨rfl,
    (c5_accelerated_preferred envBothOk stateBothOk rfl).1 rfl,
    (c5_accelerated_preferred envBothOk stateBothOk rfl).2 rfl⟩

/-- C6: the only observable side effects of a completed initialization are
exactly one printed notice line per capability that degraded, in source
order, and nothing when a capability resolved to its accelerated backend;
every effect is a print to standard output (no file writes, no network
requests). -/
theorem c6_side_effects (env : ImportEnv) (s : ModuleState)
    (h : initModule env = .ok s) :
    s.stdout =
        (match env.gudhiBottleneckProbe with
         | .ok => []
         | .raised _ => [Effect.printLine bottleneckNotice]) ++
        (match env.heraWassersteinProbe with
         | .ok => []
         | .raised _ => [Effect.printLine wassersteinNotice]) ∧
      ∀ eff ∈ s.stdout, ∃ line, eff = Effect.printLine line := by
  obtain ⟨-, -, rfl⟩ := initModule_ok_iff.mp h
  refine ⟨stdout_of_resolved env, ?_⟩
  intro eff heff
  rw [stdout_of_resolved env, List.mem_append] at heff
  rcases heff with hmem | hmem
  · rcases hb : env.gudhiBottleneckProbe with _ | e
    · rw [hb] at hmem
      exact absurd hmem (List.not_mem_nil eff)
    · rw [hb] at hmem
      rw [List.mem_singleton] at hmem
      exact ⟨_, hmem⟩
  · rcases hw : env.heraWassersteinProbe with _ | e
    · rw [hw] at hmem
      exact absurd hmem (List.not_mem_nil eff)
    · rw [hw] at hmem
      rw [List.mem_singleton] at hmem
      exact ⟨_, hmem⟩

/-- Witness for C6 at the environment where both accelerated imports
fail: exactly the two notice lines are printed. -/
theorem c6_witness :
    initModule envBothFail = .ok stateBothFail ∧
      stateBothFail.stdout =
        [Effect.printLine bottleneckNotice] ++
          [Effect.printLine wassersteinNotice] ∧
      ∀ eff ∈ stateBothFail.stdout, ∃ line, eff = Effect.printLine line := by
  have h := c6_side_effects envBothFail stateBothFail rfl
  exact ⟨rfl, h.1, h.2⟩

/-- C7: on every resolution path the exposed `wasserstein` callable takes
the two diagrams plus optional parameters `p` and `delta`; its declared
signature has required parameters `diagram_1, diagram_2` and defaults
`p = 1`, `delta = 0.01`, and omitting an optional argument behaves exactly
like passing its default. -/
theorem c7_wasserstein_signature (env : ImportEnv) (s : ModuleState)
    (_h : initModule env = .ok s) (b : WassersteinBinding)
    (_hb : s.wasserstein = some b) :
    b.signature =
        { required := ["diagram_1", "diagram_2"],
          defaults := [("p", 1), ("delta", 1 / 100)] } ∧
      (∀ d1 d2 deltaOpt,
        b.apply d1 d2 none deltaOpt = b.apply d1 d2 (some 1) deltaOpt) ∧
      (∀ d1 d2 pOpt,
        b.apply d1 d2 pOpt none = b.apply d1 d2 pOpt (some (1 / 100))) := by
  cases b
  · exact ⟨rfl, fun _ _ _ => rfl, fun _ _ _ => rfl⟩
  · exact ⟨rfl, fun _ _ _ => rfl, fun _ _ _ => rfl⟩

/-- Witness for C7 on the stub path. -/
theorem c7_witness :
    initModule envWFail = .ok stateWFail ∧
      stateWFail.wasserstein = some .stub ∧
      WassersteinBinding.stub.signature =
        { required := ["diagram_1", "diagram_2"],
          defaults := [("p", 1), ("delta", 1 / 100)] } :=
  ⟨rfl, rfl,
    (c7_wasserstein_signature envWFail stateWFail rfl .stub rfl).1⟩

/-- C8: whatever backend the resolver bound, the resolved
`bottleneck_distance` is symmetric in its two arguments and vanishes on
equal diagrams. -/
theorem c8_bottleneck_symm_identity (env : ImportEnv) (s : ModuleState)
    (b : BottleneckBinding) (_h : initModule env = .ok s)
    (_hb : s.bottleneck_distance = some b) (d1 d2 : PD) :
    b.apply d1 d2 = b.apply d2 d1 ∧ b.apply d1 d1 = 0 := by
  cases b
  · exact ⟨bottleneckDistance_comm d1 d2, bottleneckDistance_self d1⟩
  · exact ⟨bottleneckDistance_comm d1 d2, bottleneckDistance_self d1⟩

/-- Witness for C8 on the accelerated path, at the diagrams `{(0, 1)}`
and `{(0, 2)}`. -/
theorem c8_witness :
    initModule envBothOk = .ok stateBothOk ∧
      stateBothOk.bottleneck_distance = some .accelerated ∧
      BottleneckBinding.accelerated.apply [(0, 1)] [(0, 2)] =
        BottleneckBinding.accelerated.apply [(0, 2)] [(0, 1)] ∧
      BottleneckBinding.accelerated.apply [(0, 1)] [(0, 1)] = 0 :=
  ⟨rfl, rfl,
    c8_bottleneck_symm_identity envBothOk stateBothOk .accelerated rfl rfl
      [(0, 1)] [(0, 2)]⟩

/-- C9: each bare `except:` catches every raisable object, whatever its
type — including non-`Exception` signals — and in every such case the
fallback or stub path is selected and initialization still completes. -/
theorem c9_bare_except_catches_all (env : ImportEnv) (e : PyExc)
    (hp : env.pyximportProbe = .ok) (hd : env.distutilsProbe = .ok) :
    (env.gudhiBottleneckProbe = .raised e →
        ∃ s, initModule env = .ok s ∧
          s.bottleneck_distance = some .gudhiFallback) ∧
      (env.heraWassersteinProbe = .raised e →
        ∃ s, initModule env = .ok s ∧ s.wasserstein = some .stub) := by
  constructor
  · intro hb
    refine ⟨_, initModule_ok_iff.mpr ⟨hp, hd, rfl⟩, ?_⟩
    rw [bottleneck_of_resolved, hb]
  · intro hw
    refine ⟨_, initModule_ok_iff.mpr ⟨hp, hd, rfl⟩, ?_⟩
    rw [wasserstein_of_resolved, hw]

/-- Witness for C9 with a `KeyboardInterrupt`, which is not an instance of
`Exception` yet is still caught. -/
theorem c9_witness :
    PyExc.keyboardInterrupt.isException = false ∧
      (∃ s, initModule envInterrupted = .ok s ∧
        s.bottleneck_distance = some .gudhiFallback) ∧
      (∃ s, initModule envInterrupted = .ok s ∧ s.wasserstein = some .stub) :=
  ⟨rfl,
    (c9_bare_except_catches_all envInterrupted .keyboardInterrupt rfl rfl).1 rfl,
    (c9_bare_except_catches_all envInterrupted .keyboardInterrupt rfl rfl).2 rfl⟩

/-- C10: the prerequisite steps run outside any handler, so a failure in
`import pyximport; pyximport.install()` — or, with that step succeeding,
in `from distutils.errors import CompileError` — propagates out of module
initialization and no final module state (hence neither binding) exists. -/
theorem c10_unguarded_prerequisites (env : ImportEnv) (e : PyExc) :
    (env.pyximportProbe = .raised e →
        initModule env = .error e ∧ ∀ s, initModule env ≠ .ok s) ∧
      (env.pyximportProbe = .ok → env.distutilsProbe = .raised e →
        initModule env = .error e ∧ ∀ s, initModule env ≠ .ok s) := by
  constructor
  · intro hp
    have herr : initModule env = .error e := by simp [initModule, hp]
    refine ⟨herr, fun s hok => ?_⟩
    rw [herr] at hok
    exact Except.noConfusion hok
  · intro hp hd
    have herr : initModule env = .error e := by simp [initModule, hp, hd]
    refine ⟨herr, fun s hok => ?_⟩
    rw [herr] at hok
    exact Except.noConfusion hok

/-- Witness for C10 at the two environments where a prerequisite fails. -/
theorem c10_witness :
    (initModule envPyxFail = .error (.importError "pyximport missing") ∧
      ∀ s, initModule envPyxFail ≠ .ok s) ∧
    (initModule envDistutilsFail = .error (.importError "distutils missing") ∧
      ∀ s, initModule envDistutilsFail ≠ .ok s) :=
  ⟨(c10_unguarded_prerequisites envPyxFail _).1 rfl,
    (c10_unguarded_prerequisites envDistutilsFail _).2 rfl rfl⟩

end GiottoDeps
